import Mathlib

/-
Verification of the Basal Energy Expenditure tool (src/main.py).

The program is a single FastAPI endpoint around one pure function,
calculate_bee, plus a pydantic form schema (BEEFormInput) and an output
record (BEEFormOutput).  The embedding below models:

  - Python str.lower() and str.replace(" ", "_") on the ASCII strings the
    program uses, as character-wise maps over the string data;
  - Python floats as rationals; every constant in the source is an exact
    decimal, so the arithmetic is exact here.  Python round(x, 2) is
    modelled as rounding x * 100 to the nearest integer (half away from
    the floor, i.e. floor(x * 100 + 1/2)) divided by 100; Python rounds
    the underlying binary float with ties to even, which agrees with this
    model away from exact ties at the third decimal;
  - the two HTTPException branches of calculate_bee as an error result
    carrying the status code and detail string;
  - the pydantic field constraints of BEEFormInput (Literal enumerations,
    age between 1 and 150, weight and height at least 1.0) as a validity
    predicate, and the request pipeline of the endpoint on top of it.
-/

/-- Model of Python str.lower() as a character-wise map.  The program only
lowercases ASCII identifiers such as unit names, sexes and activity levels,
on which the two functions agree. -/
def strLower (s : String) : String := ⟨s.data.map Char.toLower⟩

/-- Model of Python str.replace(" ", "_").  The pattern is the single
space character, so the replacement is a character-wise map. -/
def strUnderscoreSpaces (s : String) : String :=
  ⟨s.data.map (fun c => if c = ' ' then '_' else c)⟩

/-- Model of Python round(x, 2): round x * 100 to the nearest integer and
divide by 100 again.  Rat.floor keeps the definition computable. -/
def round2 (x : ℚ) : ℚ := ((x * 100 + 1 / 2).floor : ℚ) / 100

/-- Input schema of the endpoint (class BEEFormInput, src/main.py lines
24 to 84).  Field constraints are modelled separately by validInput. -/
structure BEEFormInput where
  unit_system : String
  age : ℤ
  biological_sex : String
  weight : ℚ
  height : ℚ
  activity_level : String
deriving DecidableEq

/-- Output schema of the endpoint (class BEEFormOutput, src/main.py lines
87 to 121). -/
structure BEEFormOutput where
  bee_kcal : ℚ
  bee_kj : ℚ
  tdee_kcal : ℚ
  tdee_kj : ℚ
  activity_factor : ℚ
deriving DecidableEq

/-- Result of calculate_bee: either a returned output record or a raised
HTTPException with status code and detail message. -/
inductive CalcResult where
  | ok : BEEFormOutput → CalcResult
  | httpError : ℕ → String → CalcResult
deriving DecidableEq

/-- The conversion_factors dictionary (src/main.py lines 142 to 145),
as a lookup returning the weight and height factors. -/
def conversionFactors (unit : String) : Option (ℚ × ℚ) :=
  if unit = "metric" then some (1.0, 1.0)
  else if unit = "imperial" then some (0.453592, 2.54)
  else none

/-- The activity_factors dictionary (src/main.py lines 180 to 186). -/
def activityFactors (key : String) : Option ℚ :=
  if key = "sedentary" then some 1.2
  else if key = "lightly_active" then some 1.375
  else if key = "moderately_active" then some 1.55
  else if key = "very_active" then some 1.725
  else if key = "super_active" then some 1.9
  else none

/-- Lines 189 to 190 of src/main.py: normalize the activity level key and
look it up, defaulting to 1.2. -/
def activityMultiplier (activity_level : String) : ℚ :=
  (activityFactors (strUnderscoreSpaces (strLower activity_level))).getD 1.2

/-- Lines 192 to 211 of src/main.py: from the computed bee and the
multiplier, derive tdee, the kilojoule values, round and build the output
record. -/
def finishOutput (bee : ℚ) (multiplier : ℚ) : BEEFormOutput :=
  let tdee := bee * multiplier
  let bee_kj := bee * 4.184
  let tdee_kj := tdee * 4.184
  { bee_kcal := round2 bee
    bee_kj := round2 bee_kj
    tdee_kcal := round2 tdee
    tdee_kj := round2 tdee_kj
    activity_factor := multiplier }

/-- The calculate_bee function (src/main.py lines 130 to 211). -/
def calculate_bee (data : BEEFormInput) : CalcResult :=
  match conversionFactors (strLower data.unit_system) with
  | none => .httpError 400 "Invalid unit system. Must be metric or imperial."
  | some factors =>
    let weight_in_kg := data.weight * factors.1
    let height_in_cm := data.height * factors.2
    if strLower data.biological_sex = "male" then
      .ok (finishOutput
        (66.473 + (13.7516 * weight_in_kg) + (5.0033 * height_in_cm)
          - (6.7550 * (data.age : ℚ)))
        (activityMultiplier data.activity_level))
    else if strLower data.biological_sex = "female"
        ∨ strLower data.biological_sex = "intersex" then
      .ok (finishOutput
        (655.0955 + (9.5634 * weight_in_kg) + (1.8496 * height_in_cm)
          - (4.6756 * (data.age : ℚ)))
        (activityMultiplier data.activity_level))
    else .httpError 400 "Invalid biological sex. Must be male, female, or intersex."

/-- The pydantic field constraints of BEEFormInput (src/main.py lines 29
to 84): Literal enumerations for unit_system, biological_sex and
activity_level, age ge 1 and le 150, weight ge 1.0, height ge 1.0. -/
def validInput (data : BEEFormInput) : Prop :=
  (data.unit_system = "metric" ∨ data.unit_system = "imperial")
  ∧ (1 ≤ data.age ∧ data.age ≤ 150)
  ∧ (data.biological_sex = "male" ∨ data.biological_sex = "female"
      ∨ data.biological_sex = "intersex")
  ∧ (1 ≤ data.weight)
  ∧ (1 ≤ data.height)
  ∧ (data.activity_level = "sedentary" ∨ data.activity_level = "lightly_active"
      ∨ data.activity_level = "moderately_active"
      ∨ data.activity_level = "very_active"
      ∨ data.activity_level = "super_active")

instance validInputDecidable (data : BEEFormInput) : Decidable (validInput data) := by
  unfold validInput
  infer_instance

/-- HTTP response of the POST endpoint, reduced to what the claims need:
a success payload or an error status code. -/
inductive HTTPResponse where
  | success : BEEFormOutput → HTTPResponse
  | error : ℕ → HTTPResponse
deriving DecidableEq

/-- Modelled from the spec: the HTTP layer wrapping calculate_bee is not
present in src/.  Per spec section 7, a ValidationError — a malformed or
out-of-range field, such as an age outside 1 to 150 or a weight or height
below the schema minimum of 1.0 — is rejected by schema validation with
HTTP 422, while a DomainError — unit_system or biological_sex outside its
enumerated set — is answered with HTTP 400 and a descriptive message, as
sections 4.1 and 6 also state.  An unrecognized activity_level is not an
error per section 8 (the multiplier falls back to 1.2).  Requests passing
both checks are answered by calculate_bee, whose HTTPException status
would surface unchanged. -/
def post_calculate_bee (data : BEEFormInput) : HTTPResponse :=
  if ¬ ((1 ≤ data.age ∧ data.age ≤ 150) ∧ 1 ≤ data.weight ∧ 1 ≤ data.height) then
    .error 422
  else if ¬ ((data.unit_system = "metric" ∨ data.unit_system = "imperial")
      ∧ (data.biological_sex = "male" ∨ data.biological_sex = "female"
        ∨ data.biological_sex = "intersex")) then
    .error 400
  else
    match calculate_bee data with
    | .ok out => .success out
    | .httpError code _ => .error code

/-- Projection: the bee_kcal field of a successful calculation. -/
def beeOf : CalcResult → Option ℚ
  | .ok out => some out.bee_kcal
  | .httpError _ _ => none

/-- Projection: the tdee_kcal field of a successful calculation. -/
def tdeeOf : CalcResult → Option ℚ
  | .ok out => some out.tdee_kcal
  | .httpError _ _ => none

/-- Projection: the activity_factor field of a successful calculation. -/
def factorOf : CalcResult → Option ℚ
  | .ok out => some out.activity_factor
  | .httpError _ _ => none

/-- The scenario input of spec section 8: metric, age 25, male, weight
70.5, height 175, moderately active. -/
def scenarioInput : BEEFormInput :=
  ⟨"metric", 25, "male", 70.5, 175, "moderately_active"⟩

/-- The output calculate_bee actually produces on scenarioInput. -/
def scenarioOutput : BEEFormOutput :=
  { bee_kcal := 1742.66
    bee_kj := 7291.30
    tdee_kcal := 2701.13
    tdee_kj := 11301.52
    activity_factor := 1.55 }

lemma ratFloor_eq_intFloor (q : ℚ) : (Rat.floor q : ℤ) = ⌊q⌋ := by
  rw [Rat.floor_def', ← Rat.floor_def]

lemma round2_eq_of (x : ℚ) (n : ℤ) (h1 : (n : ℚ) ≤ x * 100 + 1 / 2)
    (h2 : x * 100 + 1 / 2 < (n : ℚ) + 1) : round2 x = (n : ℚ) / 100 := by
  unfold round2
  rw [ratFloor_eq_intFloor, Int.floor_eq_iff.mpr ⟨h1, h2⟩]

lemma round2_eq_round (x : ℚ) : round2 x = ((round (x * 100) : ℤ) : ℚ) / 100 := by
  unfold round2
  rw [round_eq, ← ratFloor_eq_intFloor]

lemma abs_round2_sub_le (x : ℚ) : |round2 x - x| ≤ 1 / 200 := by
  rw [round2_eq_round]
  have h := abs_sub_round (x * 100)
  rw [abs_sub_comm] at h
  have h2 : ((round (x * 100) : ℤ) : ℚ) / 100 - x
      = (((round (x * 100) : ℤ) : ℚ) - x * 100) / 100 := by ring
  rw [h2, abs_div, show |(100 : ℚ)| = 100 by norm_num]
  linarith

lemma abs_round2_mul_le (x c : ℚ) (hc : 0 ≤ c) :
    |round2 (x * c) - round2 x * c| ≤ (1 + c) / 200 := by
  have h1 := abs_round2_sub_le (x * c)
  have h2 := abs_round2_sub_le x
  have h3 : |round2 x - x| * c ≤ 1 / 200 * c :=
    mul_le_mul_of_nonneg_right h2 hc
  calc |round2 (x * c) - round2 x * c|
      = |(round2 (x * c) - x * c) + (x - round2 x) * c| := by ring_nf
    _ ≤ |round2 (x * c) - x * c| + |(x - round2 x) * c| := abs_add _ _
    _ = |round2 (x * c) - x * c| + |x - round2 x| * c := by
        rw [abs_mul, abs_of_nonneg hc]
    _ = |round2 (x * c) - x * c| + |round2 x - x| * c := by rw [abs_sub_comm x]
    _ ≤ 1 / 200 + 1 / 200 * c := add_le_add h1 h3
    _ = (1 + c) / 200 := by ring

lemma activityMultiplier_lb (act : String) : 6 / 5 ≤ activityMultiplier act := by
  unfold activityMultiplier activityFactors
  split_ifs <;> norm_num

lemma activityMultiplier_ub (act : String) : activityMultiplier act ≤ 19 / 10 := by
  unfold activityMultiplier activityFactors
  split_ifs <;> norm_num

/-- Inversion: a successful result of calculate_bee is finishOutput of one
of the two Harris-Benedict branches, evaluated at the weight and height
scaled by the factors that conversionFactors returned. -/
lemma calculate_bee_ok_inv (data : BEEFormInput) (out : BEEFormOutput)
    (h : calculate_bee data = .ok out) :
    ∃ f1 f2 : ℚ, conversionFactors (strLower data.unit_system) = some (f1, f2) ∧
      (out = finishOutput
          (66.473 + (13.7516 * (data.weight * f1)) + (5.0033 * (data.height * f2))
            - (6.7550 * (data.age : ℚ)))
          (activityMultiplier data.activity_level)
        ∨ out = finishOutput
          (655.0955 + (9.5634 * (data.weight * f1)) + (1.8496 * (data.height * f2))
            - (4.6756 * (data.age : ℚ)))
          (activityMultiplier data.activity_level)) := by
  unfold calculate_bee at h
  cases hc : conversionFactors (strLower data.unit_system) with
  | none => rw [hc] at h; exact absurd h (by simp)
  | some factors =>
    obtain ⟨f1, f2⟩ := factors
    rw [hc] at h
    dsimp only at h
    refine ⟨f1, f2, rfl, ?_⟩
    by_cases hm : strLower data.biological_sex = "male"
    · rw [if_pos hm] at h
      exact Or.inl (by injection h with h; exact h.symm)
    · rw [if_neg hm] at h
      by_cases hf : strLower data.biological_sex = "female"
          ∨ strLower data.biological_sex = "intersex"
      · rw [if_pos hf] at h
        exact Or.inr (by injection h with h; exact h.symm)
      · rw [if_neg hf] at h
        exact absurd h (by simp)

/-- The factors returned by conversionFactors are the imperial pair
exactly when the unit string is "imperial", and the identity pair
otherwise. -/
lemma conversionFactors_cases (s : String) (f1 f2 : ℚ)
    (h : conversionFactors s = some (f1, f2)) :
    (s = "imperial" ∧ f1 = 0.453592 ∧ f2 = 2.54)
    ∨ (s ≠ "imperial" ∧ f1 = 1 ∧ f2 = 1) := by
  unfold conversionFactors at h
  by_cases hm : s = "metric"
  · rw [if_pos hm] at h
    refine Or.inr ⟨by rw [hm]; decide, ?_⟩
    injection h with h
    rw [Prod.mk.injEq] at h
    constructor
    · rw [← h.1]; norm_num
    · rw [← h.2]; norm_num
  · rw [if_neg hm] at h
    by_cases hi : s = "imperial"
    · rw [if_pos hi] at h
      injection h with h
      rw [Prod.mk.injEq] at h
      exact Or.inl ⟨hi, h.1.symm, h.2.symm⟩
    · rw [if_neg hi] at h
      exact absurd h (by simp)

/-- Evaluation of calculate_bee on the scenario input of spec section 8. -/
lemma calculate_bee_scenario : calculate_bee scenarioInput = .ok scenarioOutput := by
  unfold scenarioInput scenarioOutput
  simp +decide only [calculate_bee, conversionFactors, finishOutput, activityMultiplier,
    activityFactors, strLower, strUnderscoreSpaces, ite_true, ite_false,
    Option.getD_some, CalcResult.ok.injEq, BEEFormOutput.mk.injEq]
  refine ⟨?_, ?_, ?_, ?_, ?_⟩
  · rw [round2_eq_of _ 174266 (by norm_num) (by norm_num)]; norm_num
  · rw [round2_eq_of _ 729130 (by norm_num) (by norm_num)]; norm_num
  · rw [round2_eq_of _ 270113 (by norm_num) (by norm_num)]; norm_num
  · rw [round2_eq_of _ 1130152 (by norm_num) (by norm_num)]; norm_num
  · norm_num

lemma round2_mul_mult_tol (x m : ℚ) (hlb : 6 / 5 ≤ m) (hub : m ≤ 19 / 10) :
    |round2 (x * m) - round2 x * m| ≤ 3 / 200 := by
  have h := abs_round2_mul_le x m (by linarith)
  linarith

lemma round2_mul_kj_tol (x : ℚ) :
    |round2 (x * 4.184) - round2 x * 4.184| ≤ 3 / 100 := by
  have h := abs_round2_mul_le x 4.184 (by norm_num)
  exact le_trans h (by norm_num)

lemma finishOutput_bee_kcal (bee m : ℚ) : (finishOutput bee m).bee_kcal = round2 bee := rfl

lemma finishOutput_bee_kj (bee m : ℚ) :
    (finishOutput bee m).bee_kj = round2 (bee * 4.184) := rfl

lemma finishOutput_tdee_kcal (bee m : ℚ) :
    (finishOutput bee m).tdee_kcal = round2 (bee * m) := rfl

lemma finishOutput_tdee_kj (bee m : ℚ) :
    (finishOutput bee m).tdee_kj = round2 (bee * m * 4.184) := rfl

lemma finishOutput_factor (bee m : ℚ) : (finishOutput bee m).activity_factor = m := rfl

/-- Claim C1: for every valid input, calculate_bee first normalizes weight
and height to metric (imperial weight times 0.453592, imperial height
times 2.54, metric unchanged) and then computes the returned BEE as the
male Harris-Benedict formula when the biological sex is male, and as the
female formula when it is female or intersex, rounded to two decimals. -/
theorem C1_normalize_then_formula (u : String) (a : ℤ) (s : String) (w h : ℚ)
    (act : String)
    (hu : u = "metric" ∨ u = "imperial")
    (hs : s = "male" ∨ s = "female" ∨ s = "intersex") :
    ∃ out, calculate_bee ⟨u, a, s, w, h, act⟩ = .ok out ∧
      out.bee_kcal = round2 (
        if s = "male" then
          66.473 + 13.7516 * (if u = "imperial" then w * 0.453592 else w)
            + 5.0033 * (if u = "imperial" then h * 2.54 else h)
            - 6.7550 * (a : ℚ)
        else
          655.0955 + 9.5634 * (if u = "imperial" then w * 0.453592 else w)
            + 1.8496 * (if u = "imperial" then h * 2.54 else h)
            - 4.6756 * (a : ℚ)) := by
  rcases hu with hu | hu <;> rcases hs with hs | hs | hs <;> subst hu <;> subst hs <;>
    (simp +decide only [calculate_bee, conversionFactors, strLower, ite_true, ite_false]
     refine ⟨_, rfl, ?_⟩
     rw [finishOutput_bee_kcal]
     try exact congrArg round2 (by ring))

/-- Witness for C1 at a concrete valid input. -/
theorem C1_normalize_then_formula_witness :
    ∃ out, calculate_bee ⟨"metric", 25, "male", (70 : ℚ), 175, "sedentary"⟩ = .ok out ∧
      out.bee_kcal = round2 (
        if "male" = "male" then
          66.473 + 13.7516 * (if "metric" = "imperial" then (70 : ℚ) * 0.453592 else 70)
            + 5.0033 * (if "metric" = "imperial" then (175 : ℚ) * 2.54 else 175)
            - 6.7550 * ((25 : ℤ) : ℚ)
        else
          655.0955 + 9.5634 * (if "metric" = "imperial" then (70 : ℚ) * 0.453592 else 70)
            + 1.8496 * (if "metric" = "imperial" then (175 : ℚ) * 2.54 else 175)
            - 4.6756 * ((25 : ℤ) : ℚ)) :=
  C1_normalize_then_formula "metric" 25 "male" 70 175 "sedentary"
    (Or.inl rfl) (Or.inl rfl)

/-- Claim C2 is false on the code: on the scenario input (metric, age 25,
male, weight 70.5 kg, height 175 cm, moderately active) calculate_bee
returns bee_kcal 1742.66 and tdee_kcal 2701.13, while the claim expects
approximately 1734.27 and 2688.11; the returned values miss the claimed
ones by more than 8 kcal, far beyond any rounding tolerance. -/
theorem C2_counterexample :
    beeOf (calculate_bee scenarioInput) = some 1742.66
    ∧ tdeeOf (calculate_bee scenarioInput) = some 2701.13
    ∧ ¬ |(1742.66 : ℚ) - 1734.27| ≤ 8
    ∧ ¬ |(2701.13 : ℚ) - 2688.11| ≤ 8 := by
  refine ⟨?_, ?_, ?_, ?_⟩
  · rw [calculate_bee_scenario]; rfl
  · rw [calculate_bee_scenario]; rfl
  · rw [abs_of_pos (by norm_num)]; norm_num
  · rw [abs_of_pos (by norm_num)]; norm_num

/-- Claim C2 (amended): on the scenario input (metric, age 25, male,
weight 70.5 kg, height 175 cm, moderately active) the calculation returns
bee_kcal 1742.66, activity_factor exactly 1.55, and tdee_kcal 2701.13. -/
theorem C2_scenario_values :
    beeOf (calculate_bee scenarioInput) = some 1742.66
    ∧ factorOf (calculate_bee scenarioInput) = some 1.55
    ∧ tdeeOf (calculate_bee scenarioInput) = some 2701.13 := by
  refine ⟨?_, ?_, ?_⟩ <;> (rw [calculate_bee_scenario]; rfl)

/-- Claim C3: whenever calculate_bee returns a result, the returned
tdee_kcal equals the returned bee_kcal times the returned activity_factor
up to the tolerance of rounding both energy values to two decimals; with
a multiplier of at most 1.9, the gap is at most (1 + 1.9) / 200 ≤ 3/200. -/
theorem C3_tdee_eq_bee_times_factor (data : BEEFormInput) (out : BEEFormOutput)
    (h : calculate_bee data = .ok out) :
    |out.tdee_kcal - out.bee_kcal * out.activity_factor| ≤ 3 / 200 := by
  obtain ⟨f1, f2, -, hout | hout⟩ := calculate_bee_ok_inv data out h <;>
  · subst hout
    rw [finishOutput_tdee_kcal, finishOutput_bee_kcal, finishOutput_factor]
    exact round2_mul_mult_tol _ _ (activityMultiplier_lb data.activity_level)
      (activityMultiplier_ub data.activity_level)

/-- Witness for C3 at the scenario input. -/
theorem C3_tdee_eq_bee_times_factor_witness :
    |scenarioOutput.tdee_kcal - scenarioOutput.bee_kcal * scenarioOutput.activity_factor|
      ≤ 3 / 200 :=
  C3_tdee_eq_bee_times_factor scenarioInput scenarioOutput calculate_bee_scenario

/-- Claim C4: whenever calculate_bee returns a result, bee_kj equals
bee_kcal times 4.184 and tdee_kj equals tdee_kcal times 4.184, up to the
tolerance of rounding each value to two decimals; the gap is at most
(1 + 4.184) / 200 ≤ 3/100. -/
theorem C4_kj_conversion (data : BEEFormInput) (out : BEEFormOutput)
    (h : calculate_bee data = .ok out) :
    |out.bee_kj - out.bee_kcal * 4.184| ≤ 3 / 100
    ∧ |out.tdee_kj - out.tdee_kcal * 4.184| ≤ 3 / 100 := by
  obtain ⟨f1, f2, -, hout | hout⟩ := calculate_bee_ok_inv data out h <;>
  · subst hout
    rw [finishOutput_bee_kj, finishOutput_bee_kcal, finishOutput_tdee_kj,
      finishOutput_tdee_kcal]
    exact ⟨round2_mul_kj_tol _, round2_mul_kj_tol _⟩

/-- Witness for C4 at the scenario input. -/
theorem C4_kj_conversion_witness :
    |scenarioOutput.bee_kj - scenarioOutput.bee_kcal * 4.184| ≤ 3 / 100
    ∧ |scenarioOutput.tdee_kj - scenarioOutput.tdee_kcal * 4.184| ≤ 3 / 100 :=
  C4_kj_conversion scenarioInput scenarioOutput calculate_bee_scenario

/-- Claim C5 is false as stated: the string "Moderately Active" is not one
of the five recognized tier strings, yet the calculation succeeds with
activity multiplier 1.55, not 1.2, because the code lowercases the string
and replaces spaces with underscores before the lookup. -/
theorem C5_counterexample :
    "Moderately Active" ∉ (["sedentary", "lightly_active", "moderately_active",
        "very_active", "super_active"] : List String)
    ∧ factorOf (calculate_bee ⟨"metric", 25, "male", 70, 175, "Moderately Active"⟩)
        = some 1.55
    ∧ (1.55 : ℚ) ≠ 1.2 := by
  refine ⟨by decide, ?_, by norm_num⟩
  simp +decide only [calculate_bee, conversionFactors, strLower, strUnderscoreSpaces,
    activityMultiplier, activityFactors, ite_true, ite_false, Option.getD_some,
    factorOf, finishOutput_factor]

/-- Claim C5 (amended): for every request whose activity_level, after
lowercasing and replacing spaces with underscores, is not one of the five
recognized tier keys, the calculation succeeds (given an enumerated
unit_system and biological_sex) with activity multiplier 1.2 rather than
failing with an error. -/
theorem C5_default_multiplier (u : String) (a : ℤ) (s : String) (w h : ℚ)
    (act : String)
    (hu : u = "metric" ∨ u = "imperial")
    (hs : s = "male" ∨ s = "female" ∨ s = "intersex")
    (hact : strUnderscoreSpaces (strLower act) ∉
      (["sedentary", "lightly_active", "moderately_active", "very_active",
        "super_active"] : List String)) :
    ∃ out, calculate_bee ⟨u, a, s, w, h, act⟩ = .ok out
      ∧ out.activity_factor = 1.2 := by
  have hm : activityMultiplier act = 1.2 := by
    simp only [List.mem_cons, List.not_mem_nil, or_false, not_or] at hact
    obtain ⟨n1, n2, n3, n4, n5⟩ := hact
    unfold activityMultiplier activityFactors
    rw [if_neg n1, if_neg n2, if_neg n3, if_neg n4, if_neg n5]
    rfl
  rcases hu with hu | hu <;> rcases hs with hs | hs | hs <;> subst hu <;> subst hs <;>
    (simp +decide only [calculate_bee, conversionFactors, strLower, ite_true, ite_false]
     exact ⟨_, rfl, by rw [finishOutput_factor]; exact hm⟩)

/-- Witness for C5 (amended) at a concrete input with the unrecognized
activity level "none". -/
theorem C5_default_multiplier_witness :
    ∃ out, calculate_bee ⟨"metric", 30, "female", (60 : ℚ), 160, "none"⟩ = .ok out
      ∧ out.activity_factor = 1.2 :=
  C5_default_multiplier "metric" 30 "female" 60 160 "none"
    (Or.inl rfl) (Or.inr (Or.inl rfl)) (by decide)

/-- A request whose unit_system is the out-of-enumeration string
"unknown" and whose other fields are valid. -/
def unknownUnitInput : BEEFormInput := ⟨"unknown", 25, "male", 70, 175, "sedentary"⟩

/-- Claim C6: every request to POST /calculate_bee/ whose unit_system is
not in the set containing metric and imperial, or whose biological_sex is
not in the set containing male, female and intersex, is answered with
HTTP 400 with a descriptive message, provided its remaining fields pass
schema validation (a request also failing a range constraint is already
rejected with 422 before the enumerations are examined); in particular
unit_system "unknown" yields HTTP 400. -/
theorem C6_invalid_enum_400 (data : BEEFormInput)
    (hok : (1 ≤ data.age ∧ data.age ≤ 150) ∧ 1 ≤ data.weight ∧ 1 ≤ data.height)
    (hinv : ¬ (data.unit_system = "metric" ∨ data.unit_system = "imperial")
        ∨ ¬ (data.biological_sex = "male" ∨ data.biological_sex = "female"
            ∨ data.biological_sex = "intersex")) :
    post_calculate_bee data = .error 400 := by
  have henum : ¬ ((data.unit_system = "metric" ∨ data.unit_system = "imperial")
      ∧ (data.biological_sex = "male" ∨ data.biological_sex = "female"
        ∨ data.biological_sex = "intersex")) := by
    intro h
    rcases hinv with hu | hs
    · exact hu h.1
    · exact hs h.2
  unfold post_calculate_bee
  rw [if_neg (not_not_intro hok), if_pos henum]

/-- Witness for C6: unit_system "unknown" with otherwise valid fields
yields HTTP 400. -/
theorem C6_invalid_enum_400_witness :
    post_calculate_bee unknownUnitInput = .error 400 :=
  C6_invalid_enum_400 unknownUnitInput
    ⟨⟨by decide, by decide⟩, by norm_num [unknownUnitInput], by norm_num [unknownUnitInput]⟩
    (Or.inl (by decide))

/-- The metric input of the unit-conversion comparison in spec section 8. -/
def metricInput : BEEFormInput := ⟨"metric", 25, "male", 70, 175, "moderately_active"⟩

/-- The imperial input of the unit-conversion comparison: 154.324 lb and
68.90 in, the 70 kg and 175 cm values converted and rounded. -/
def imperialInput : BEEFormInput :=
  ⟨"imperial", 25, "male", 154.324, 68.90, "moderately_active"⟩

lemma bee_metricInput : beeOf (calculate_bee metricInput) = some 1735.79 := by
  unfold metricInput
  simp +decide only [calculate_bee, conversionFactors, strLower, ite_true, ite_false,
    beeOf, finishOutput_bee_kcal, Option.some.injEq]
  rw [round2_eq_of _ 173579 (by norm_num) (by norm_num)]
  norm_num

lemma bee_imperialInput : beeOf (calculate_bee imperialInput) = some 1735.82 := by
  unfold imperialInput
  simp +decide only [calculate_bee, conversionFactors, strLower, ite_true, ite_false,
    beeOf, finishOutput_bee_kcal, Option.some.injEq]
  rw [round2_eq_of _ 173582 (by norm_num) (by norm_num)]
  norm_num

/-- Claim C7 is false as stated: the metric input weight 70 kg, height
175 cm gives bee_kcal 1735.79 while the imperial input weight 154.324 lb,
height 68.90 in gives 1735.82; they differ by 0.03 kcal, more than the
0.01 tolerance two-decimal rounding can introduce, because 154.324 lb and
68.90 in are themselves rounded conversions of 70 kg and 175 cm. -/
theorem C7_counterexample :
    beeOf (calculate_bee metricInput) = some 1735.79
    ∧ beeOf (calculate_bee imperialInput) = some 1735.82
    ∧ ¬ |(1735.79 : ℚ) - 1735.82| ≤ 1 / 100 := by
  refine ⟨bee_metricInput, bee_imperialInput, ?_⟩
  rw [abs_of_neg (by norm_num)]
  norm_num

/-- Claim C7 (amended): the metric input with weight 70 kg and height
175 cm yields a bee_kcal within 0.1 kcal of the imperial input with
weight 154.324 lb and height 68.90 in, all other fields equal. -/
theorem C7_bee_close :
    beeOf (calculate_bee metricInput) = some 1735.79
    ∧ beeOf (calculate_bee imperialInput) = some 1735.82
    ∧ |(1735.79 : ℚ) - 1735.82| ≤ 1 / 10 := by
  refine ⟨bee_metricInput, bee_imperialInput, ?_⟩
  rw [abs_of_neg (by norm_num)]
  norm_num

lemma round2_pos (x : ℚ) (hx : 1 ≤ x) : 0 < round2 x := by
  have h := abs_le.mp (abs_round2_sub_le x)
  linarith [h.1]

lemma out_pos_of_bee_ge_one (bee m : ℚ) (hb : 1 ≤ bee) (hm : 6 / 5 ≤ m) :
    0 < (finishOutput bee m).bee_kcal ∧ 0 < (finishOutput bee m).tdee_kcal := by
  rw [finishOutput_bee_kcal, finishOutput_tdee_kcal]
  refine ⟨round2_pos bee hb, round2_pos _ ?_⟩
  nlinarith

lemma bee_ge_one_male (W H A : ℚ) (hW : 35 ≤ W) (hH : 100 ≤ H) (hA : A ≤ 150) :
    1 ≤ 66.473 + (13.7516 * W) + (5.0033 * H) - (6.7550 * A) := by
  nlinarith

lemma bee_ge_one_female (W H A : ℚ) (hW : 35 ≤ W) (hH : 100 ≤ H) (hA : A ≤ 150) :
    1 ≤ 655.0955 + (9.5634 * W) + (1.8496 * H) - (4.6756 * A) := by
  nlinarith

/-- Claim C8: for every successful calculation whose inputs lie within
realistic physiological ranges — read here as at least 35 kg of body
weight and at least 100 cm of height after unit normalization, with the
age inside the schema range 1 to 150 — the returned bee_kcal and
tdee_kcal are strictly positive. -/
theorem C8_positive (data : BEEFormInput) (out : BEEFormOutput)
    (h : calculate_bee data = .ok out)
    (hw : 35 ≤ data.weight *
      (if strLower data.unit_system = "imperial" then 0.453592 else 1))
    (hh : 100 ≤ data.height *
      (if strLower data.unit_system = "imperial" then 2.54 else 1))
    (ha1 : 1 ≤ data.age) (ha2 : data.age ≤ 150) :
    0 < out.bee_kcal ∧ 0 < out.tdee_kcal := by
  have hA : (data.age : ℚ) ≤ 150 := by exact_mod_cast ha2
  obtain ⟨f1, f2, hc, hout | hout⟩ := calculate_bee_ok_inv data out h
  · rcases conversionFactors_cases _ _ _ hc with ⟨himp, hf1, hf2⟩ | ⟨himp, hf1, hf2⟩
    · subst hf1; subst hf2; subst hout
      rw [if_pos himp] at hw hh
      exact out_pos_of_bee_ge_one _ _ (bee_ge_one_male _ _ _ hw hh hA)
        (activityMultiplier_lb data.activity_level)
    · subst hf1; subst hf2; subst hout
      rw [if_neg himp] at hw hh
      exact out_pos_of_bee_ge_one _ _ (bee_ge_one_male _ _ _ hw hh hA)
        (activityMultiplier_lb data.activity_level)
  · rcases conversionFactors_cases _ _ _ hc with ⟨himp, hf1, hf2⟩ | ⟨himp, hf1, hf2⟩
    · subst hf1; subst hf2; subst hout
      rw [if_pos himp] at hw hh
      exact out_pos_of_bee_ge_one _ _ (bee_ge_one_female _ _ _ hw hh hA)
        (activityMultiplier_lb data.activity_level)
    · subst hf1; subst hf2; subst hout
      rw [if_neg himp] at hw hh
      exact out_pos_of_bee_ge_one _ _ (bee_ge_one_female _ _ _ hw hh hA)
        (activityMultiplier_lb data.activity_level)

/-- Witness for C8 at the scenario input. -/
theorem C8_positive_witness :
    0 < scenarioOutput.bee_kcal ∧ 0 < scenarioOutput.tdee_kcal :=
  C8_positive scenarioInput scenarioOutput calculate_bee_scenario
    (by simp +decide only [scenarioInput, strLower, ite_false]; norm_num)
    (by simp +decide only [scenarioInput, strLower, ite_false]; norm_num)
    (by decide) (by decide)

/-- A request with a positive but sub-unit weight of 0.5 (all other
fields valid). -/
def lowWeightInput : BEEFormInput := ⟨"metric", 25, "male", 0.5, 175, "sedentary"⟩

/-- Claim C9 is false as stated: the weight 0.5 is strictly positive, yet
the schema rejects it, because the pydantic constraint on weight (and
height) is ge 1.0, not gt 0. -/
theorem C9_counterexample :
    (0 : ℚ) < 0.5 ∧ ¬ validInput lowWeightInput := by
  refine ⟨by norm_num, ?_⟩
  intro hv
  have hw := hv.2.2.2.1
  norm_num [lowWeightInput] at hw

/-- Claim C9 (amended): with all other fields valid, an input is accepted
by the schema exactly when its weight and height are both at least 1.0
(in the units of the chosen unit system); validation rejects a weight or
height below 1.0. -/
theorem C9_weight_height_bounds (u : String) (a : ℤ) (s : String) (w h : ℚ)
    (act : String)
    (hu : u = "metric" ∨ u = "imperial")
    (ha : 1 ≤ a ∧ a ≤ 150)
    (hs : s = "male" ∨ s = "female" ∨ s = "intersex")
    (hact : act ∈ (["sedentary", "lightly_active", "moderately_active",
      "very_active", "super_active"] : List String)) :
    validInput ⟨u, a, s, w, h, act⟩ ↔ (1 ≤ w ∧ 1 ≤ h) := by
  unfold validInput
  dsimp only
  constructor
  · intro hv
    exact ⟨hv.2.2.2.1, hv.2.2.2.2.1⟩
  · intro hwh
    simp only [List.mem_cons, List.not_mem_nil, or_false] at hact
    exact ⟨hu, ha, hs, hwh.1, hwh.2, hact⟩

/-- Witness for C9 (amended) at a concrete accepted input. -/
theorem C9_weight_height_bounds_witness :
    validInput ⟨"metric", 25, "male", (70 : ℚ), 175, "sedentary"⟩
      ↔ ((1 : ℚ) ≤ 70 ∧ (1 : ℚ) ≤ 175) :=
  C9_weight_height_bounds "metric" 25 "male" 70 175 "sedentary"
    (Or.inl rfl) (by decide) (Or.inl rfl) (by decide)

/-- Claim C10: for every input whose unit_system and biological_sex lie in
the schema enumerations, neither HTTPException branch of calculate_bee is
reachable: the function returns a result record. -/
theorem C10_no_http_error (u : String) (a : ℤ) (s : String) (w h : ℚ)
    (act : String)
    (hu : u = "metric" ∨ u = "imperial")
    (hs : s = "male" ∨ s = "female" ∨ s = "intersex") :
    ∃ out, calculate_bee ⟨u, a, s, w, h, act⟩ = .ok out := by
  rcases hu with hu | hu <;> rcases hs with hs | hs | hs <;> subst hu <;> subst hs <;>
    (simp +decide only [calculate_bee, conversionFactors, strLower, ite_true, ite_false]
     exact ⟨_, rfl⟩)

/-- Witness for C10 at a concrete enumerated input. -/
theorem C10_no_http_error_witness :
    ∃ out, calculate_bee ⟨"imperial", 40, "intersex", (150 : ℚ), 65, "very_active"⟩
      = .ok out :=
  C10_no_http_error "imperial" 40 "intersex" 150 65 "very_active"
    (Or.inr rfl) (Or.inr (Or.inr rfl))
